import Mathlib

/-!
Shallow embedding of the two batch utilities in `src/github-api`:
`findallbrokenprs.py` (the broken-PR scanner) and `transfer_pr_bb2gh.py`
(the Bitbucket-to-GitHub tag-transfer utility).  Remote services are
modelled as oracles (response functions); file-system effects, tag-create
calls and tag-push calls are recorded as explicit effect lists in
processing order, exactly as the Python loop bodies issue them.  A
`f.write` that raises (the scanner's resume-marker write passes an int
with `newline=False`) is modelled as a raised flag the caller's exception
handling branches on.
-/

namespace BrokenPRs

/-- Constant `BROKEN_PRS_FILE` from `findallbrokenprs.py`. -/
def BROKEN_PRS_FILE : String := "broken_prs.txt"

/-- Constant `PR_NOT_FOUND_FILE` from `findallbrokenprs.py`. -/
def PR_NOT_FOUND_FILE : String := "pr_not_found.txt"

/-- Constant `PR_EXCEPTIONS_FILE` from `findallbrokenprs.py`. -/
def PR_EXCEPTIONS_FILE : String := "pr_exceptions.txt"

/-- Constant `LAST_ISSUE_FILE` from `findallbrokenprs.py`. -/
def LAST_ISSUE_FILE : String := "last_issue.txt"

/-- `os.path.join` as used with the state directory and the four file names. -/
def joinPath (dir base : String) : String := dir ++ "/" ++ base

/-- Python `open` mode passed to `write_to_file` (`'a'` or `'w'`). -/
inductive Mode where
  | append
  | overwrite
deriving DecidableEq

/-- A Python value passed as `data` to `write_to_file`.  Every scanner
call site passes the int `pr_number`. -/
inductive PyVal where
  | int (n : Int)
  | str (s : String)
deriving DecidableEq

/-- `f'{data}'`: Python string formatting of the value. -/
def PyVal.format : PyVal → String
  | PyVal.int n => toString n
  | PyVal.str s => s

/-- A file-system effect of one `write_to_file` call: a successful
`f.write` of formatted data (with its trailing-newline flag and open
mode), or a bare `open` whose `f.write` then raised — the `open` has
still created the file when it was absent. -/
inductive FileOp where
  | write (file : String) (data : String) (newline : Bool) (mode : Mode)
  | touch (file : String) (mode : Mode)
deriving DecidableEq

/-- Log lines the scanner emits (`logger.info` / `logger.exception` calls
inside the loop, and the `[Dry mode] Would write` line of
`write_to_file`). -/
inductive ScanEvent where
  | checking (n : Int)
  | notFoundLog (n : Int)
  | suspicious (n : Int)
  | noDiff (n : Int)
  | exnLog (n : Int)
  | dryWrite (file : String) (data : PyVal)
deriving DecidableEq

/-- Outcome of one `write_to_file` call: file-system effects performed,
log events emitted, and whether `f.write` raised `TypeError`. -/
structure WriteAttempt where
  effects : List FileOp
  events : List ScanEvent
  raised : Bool
deriving DecidableEq

/-- `write_to_file(file, data, mode, dry_run, newline)` from
`findallbrokenprs.py`: in dry-run mode it only logs the intended write;
otherwise it opens `file` with `mode` and runs `f.write(f'{data}\n')`
when `newline` is true — the f-string formats any value, so this write
succeeds — or `f.write(data)` when `newline` is false, which succeeds
for a `str` but raises `TypeError` for an `int` (a text-mode file accepts
only `str`); the `open` has already created the file (append mode) even
when the write raises. -/
def write_to_file (file : String) (data : PyVal) (mode : Mode)
    (dry_run : Bool) (newline : Bool) : WriteAttempt :=
  if dry_run then ⟨[], [ScanEvent.dryWrite file data], false⟩
  else if newline then ⟨[FileOp.write file data.format true mode], [], false⟩
  else
    match data with
    | PyVal.str s => ⟨[FileOp.write file s false mode], [], false⟩
    | PyVal.int _ => ⟨[FileOp.touch file mode], [], true⟩

/-- Result of `g.get_repo("miroapp-dev/server").get_pull(pr_number)`:
the PR object (its `commits` count and `diff_url`), the
`UnknownObjectException` branch, or any other raised exception. -/
inductive LookupResult where
  | notFound
  | found (commits : Nat) (diffUrl : String)
  | raises
deriving DecidableEq

/-- Result of `requests.get(pr.diff_url, headers=headers)`: a response
with a status code, or a raised exception. -/
inductive FetchResult where
  | status (code : Nat)
  | raises
deriving DecidableEq

/-- The GitHub remote, as the scanner observes it: one lookup response per
PR number and one HTTP response per diff URL. -/
structure GithubOracle where
  getPull : Int → LookupResult
  httpGet : String → FetchResult

/-- Everything one iteration of the scanner loop does: file-system
effects, log lines, and diff URLs fetched, each in program order. -/
structure ItemTrace where
  effects : List FileOp
  events : List ScanEvent
  fetches : List String
deriving DecidableEq

/-- The body of the scanner's `for issue in ...` loop (lines 104-136 of
`findallbrokenprs.py`) for one PR number `n`:
lookup; on `UnknownObjectException` append to the not-found file and
`continue` (skipping the resume-marker write); if the PR has zero commits
fetch the diff and on status 404 or 422 append to the broken file; then
attempt the resume-marker write — `write_to_file(last_issue_file,
pr_number, newline=False)`, whose `f.write` of the int raises `TypeError`
in a non-dry run, so the outer `except Exception` appends `n` to the
exceptions file instead; lookup or fetch exceptions reach the same
handler. -/
def processIssue (o : GithubOracle) (stateDir : String) (dry : Bool) (n : Int) :
    ItemTrace :=
  let nfFile := joinPath stateDir PR_NOT_FOUND_FILE
  let brFile := joinPath stateDir BROKEN_PRS_FILE
  let exFile := joinPath stateDir PR_EXCEPTIONS_FILE
  let liFile := joinPath stateDir LAST_ISSUE_FILE
  match o.getPull n with
  | LookupResult.notFound =>
      let w := write_to_file nfFile (PyVal.int n) Mode.append dry true
      ⟨w.effects, ScanEvent.checking n :: ScanEvent.notFoundLog n :: w.events, []⟩
  | LookupResult.raises =>
      let w := write_to_file exFile (PyVal.int n) Mode.append dry true
      ⟨w.effects, ScanEvent.checking n :: ScanEvent.exnLog n :: w.events, []⟩
  | LookupResult.found commits diffUrl =>
      if commits = 0 then
        match o.httpGet diffUrl with
        | FetchResult.raises =>
            let w := write_to_file exFile (PyVal.int n) Mode.append dry true
            ⟨w.effects,
              ScanEvent.checking n :: ScanEvent.suspicious n :: ScanEvent.exnLog n :: w.events,
              [diffUrl]⟩
        | FetchResult.status code =>
            if code = 404 ∨ code = 422 then
              let wb := write_to_file brFile (PyVal.int n) Mode.append dry true
              let wl := write_to_file liFile (PyVal.int n) Mode.append dry false
              if wl.raised then
                let wx := write_to_file exFile (PyVal.int n) Mode.append dry true
                ⟨wb.effects ++ wl.effects ++ wx.effects,
                  ScanEvent.checking n :: ScanEvent.suspicious n :: ScanEvent.noDiff n ::
                    (wb.events ++ wl.events ++ ScanEvent.exnLog n :: wx.events),
                  [diffUrl]⟩
              else
                ⟨wb.effects ++ wl.effects,
                  ScanEvent.checking n :: ScanEvent.suspicious n :: ScanEvent.noDiff n ::
                    (wb.events ++ wl.events),
                  [diffUrl]⟩
            else
              let wl := write_to_file liFile (PyVal.int n) Mode.append dry false
              if wl.raised then
                let wx := write_to_file exFile (PyVal.int n) Mode.append dry true
                ⟨wl.effects ++ wx.effects,
                  ScanEvent.checking n :: ScanEvent.suspicious n ::
                    (wl.events ++ ScanEvent.exnLog n :: wx.events),
                  [diffUrl]⟩
              else
                ⟨wl.effects,
                  ScanEvent.checking n :: ScanEvent.suspicious n :: wl.events, [diffUrl]⟩
      else
        let wl := write_to_file liFile (PyVal.int n) Mode.append dry false
        if wl.raised then
          let wx := write_to_file exFile (PyVal.int n) Mode.append dry true
          ⟨wl.effects ++ wx.effects,
            ScanEvent.checking n :: (wl.events ++ ScanEvent.exnLog n :: wx.events), []⟩
        else
          ⟨wl.effects, ScanEvent.checking n :: wl.events, []⟩

/-- The scanner loop over a list of PR numbers, concatenating each
iteration's trace in order. -/
def runScan (o : GithubOracle) (stateDir : String) (dry : Bool) :
    List Int → ItemTrace
  | [] => ⟨[], [], []⟩
  | n :: rest =>
      let t := processIssue o stateDir dry n
      let r := runScan o stateDir dry rest
      ⟨t.effects ++ r.effects, t.events ++ r.events, t.fetches ++ r.fetches⟩

/-- The scanner's `main` after enumeration: `os.makedirs(state_dir)` is
called iff not in dry-run mode, then the loop runs. -/
structure ScanRun where
  mkdirCalled : Bool
  trace : ItemTrace

/-- `main`'s state-directory creation plus the scan loop. -/
def scannerMain (o : GithubOracle) (stateDir : String) (dry : Bool)
    (issues : List Int) : ScanRun :=
  ⟨!dry, runScan o stateDir dry issues⟩

/-- The bytes a successful write stores: the data plus the optional
trailing newline. -/
def chunkOfWrite (data : String) (newline : Bool) : String :=
  data ++ (if newline then "\n" else "")

/-- File-system semantics of a single effect: a successful write
truncates (mode `'w'`) or appends (mode `'a'`, creating the file when
absent); a bare `open` creates the file empty when absent (append) or
truncates it (overwrite) and leaves it otherwise. -/
def applyWrite (fs : String → Option String) : FileOp → (String → Option String)
  | FileOp.write file data newline mode => fun f =>
      if f = file then
        match mode with
        | Mode.overwrite => some (chunkOfWrite data newline)
        | Mode.append => some (((fs f).getD "") ++ chunkOfWrite data newline)
      else fs f
  | FileOp.touch file mode => fun f =>
      if f = file then
        match mode with
        | Mode.overwrite => some ""
        | Mode.append => some ((fs f).getD "")
      else fs f

/-- Replay a list of effects against a file system. -/
def runWrites (fs : String → Option String) : List FileOp → (String → Option String)
  | [] => fs
  | op :: ops => runWrites (applyWrite fs op) ops

/-- The empty file system (no state files exist yet). -/
def emptyFS : String → Option String := fun _ => none

/-- The data of the successful writes against one file, in order: the
identifiers actually recorded in that output log (bare opens record
nothing). -/
def idsWrittenTo (file : String) : List FileOp → List String
  | [] => []
  | FileOp.write f d _ _ :: rest =>
      if f = file then d :: idsWrittenTo file rest else idsWrittenTo file rest
  | FileOp.touch _ _ :: rest => idsWrittenTo file rest

/-- Whether any successful write targets the given file. -/
def writesToFile (file : String) : List FileOp → Bool
  | [] => false
  | FileOp.write f _ _ _ :: rest =>
      if f = file then true else writesToFile file rest
  | FileOp.touch _ _ :: rest => writesToFile file rest

/-- Whether the given file is opened without a successful write (the
`TypeError` path of the resume-marker write). -/
def touchesFile (file : String) : List FileOp → Bool
  | [] => false
  | FileOp.write _ _ _ _ :: rest => touchesFile file rest
  | FileOp.touch f _ :: rest =>
      if f = file then true else touchesFile file rest

/-- The argument check at lines 70-76 of `main`: rejected when `--pr`,
`--start` and `--end` are all absent, or when `--pr` is combined with
either range bound; accepted otherwise. -/
def scannerArgsAccepted (pr : Option (List Int)) (start finish : Option Int) : Bool :=
  !(pr.isNone && start.isNone && finish.isNone) &&
    !(pr.isSome && (start.isSome || finish.isSome))

/-- `range(start, end)` for integer bounds: `[start, end)` ascending. -/
def rangeList (s e : Int) : List Int :=
  (List.range (e - s).toNat).map (fun k : Nat => s + (k : Int))

/-- The message of the uncaught `TypeError` raised by `range(start, end)`
when a bound is `None`. -/
def typeErrorMsg : String := "TypeError"

/-- Work-item enumeration at lines 85-88 of `main`: an explicit `--pr`
list is used as given; otherwise `range(args.start, args.end)` is built,
raising `TypeError` if either bound is `None`. -/
def generateIssues (pr : Option (List Int)) (start finish : Option Int) :
    Except String (List Int) :=
  match pr with
  | some l => Except.ok l
  | none =>
      match start, finish with
      | some a, some b => Except.ok (rangeList a b)
      | _, _ => Except.error typeErrorMsg

/-- Per-item predicate: the scanner appends `n` to the broken log (PR
found, zero commits, diff fetch status 404 or 422). -/
def isBrokenItem (o : GithubOracle) (n : Int) : Bool :=
  match o.getPull n with
  | LookupResult.found 0 diffUrl =>
      match o.httpGet diffUrl with
      | FetchResult.status code => if code = 404 ∨ code = 422 then true else false
      | FetchResult.raises => false
  | _ => false

/-- Per-item predicate: the PR lookup reports not found. -/
def isNotFoundItem (o : GithubOracle) (n : Int) : Bool :=
  match o.getPull n with
  | LookupResult.notFound => true
  | _ => false

/-- Per-item predicate: the non-dry iteration ends in the exception
handler and the item is appended to the exceptions log — the lookup
raised, the diff fetch raised, or (for every found PR that reaches line
131) the resume-marker write itself raised `TypeError`; only not-found
items escape it. -/
def isExnItem (o : GithubOracle) (n : Int) : Bool :=
  match o.getPull n with
  | LookupResult.raises => true
  | LookupResult.found _ _ => true
  | LookupResult.notFound => false

/-- Per-item predicate: the body reaches the resume-marker write at line
131 (PR found and, if zero commits, the diff fetch returned rather than
raising).  In a non-dry run that write then raises `TypeError`, so the
marker file is only ever opened, never written. -/
def markerAttemptItem (o : GithubOracle) (n : Int) : Bool :=
  match o.getPull n with
  | LookupResult.found 0 diffUrl =>
      match o.httpGet diffUrl with
      | FetchResult.status _ => true
      | FetchResult.raises => false
  | LookupResult.found _ _ => true
  | _ => false

/-- State directory used in the concrete runs below (the default is
`<cwd>/data`). -/
def dataDir : String := "data"

/-- Diff URL the mocked PR object 18057 carries. -/
def diffUrl18057 : String := "diff-18057"

/-- Diff URL the mocked PR object 32559 carries. -/
def diffUrl32559 : String := "diff-32559"

/-- Mocked GitHub responses for the end-to-end scenario: PR 18057 found
with zero commits and a diff fetch answering 404, PR 32559 found with
three commits, every other number not found. -/
def scenarioOracle : GithubOracle where
  getPull := fun n =>
    if n = 18057 then LookupResult.found 0 diffUrl18057
    else if n = 32559 then LookupResult.found 3 diffUrl32559
    else LookupResult.notFound
  httpGet := fun _ => FetchResult.status 404

/-- Diff URL of the mocked zero-commit PR whose diff fetch answers 500. -/
def diffUrl500 : String := "diff-500"

/-- Mocked GitHub responses where every PR is found with zero commits and
every diff fetch answers status 500 (neither 404 nor 422). -/
def status500Oracle : GithubOracle where
  getPull := fun _ => LookupResult.found 0 diffUrl500
  httpGet := fun _ => FetchResult.status 500

end BrokenPRs

namespace TransferPR

/-- The PR metadata dict returned by `bb.get_pull_request`, restricted to
the fields the script reads: `pr['id']` and `pr['fromRef']['latestCommit']`
(`none` models a JSON `null`). -/
structure PRMeta where
  id : Int
  latestCommit : Option String
deriving DecidableEq

/-- Result of `bb.get_pull_request(project, slug, pr)`: the metadata dict,
a `requests.exceptions.HTTPError` with a status code, or any other raised
exception. -/
inductive BBResult where
  | ok (meta : PRMeta)
  | httpError (status : Nat)
  | raises
deriving DecidableEq

/-- Result of `bb.set_tag(project, slug, tag_name, commit_hash)`. -/
inductive TagResult where
  | ok
  | httpError (status : Nat)
  | raises
deriving DecidableEq

/-- Result of `repo.remotes.github.push(refspec)`. -/
inductive PushResult where
  | ok
  | raises
deriving DecidableEq

/-- The two remote services the loop talks to: the Bitbucket REST API
(PR lookup keyed by project, slug and id; tag creation keyed by project,
slug, tag name and commit hash) and the git push transport keyed by
refspec. -/
structure BBOracle where
  getPullRequest : String → String → Int → BBResult
  setTag : String → String → String → String → TagResult
  push : String → PushResult

/-- One issued `bb.set_tag` call with its four arguments. -/
structure SetTagCall where
  project : String
  slug : String
  tag : String
  commit : String
deriving DecidableEq

/-- Log lines the transfer loop emits, in program order. -/
inductive TransferEvent where
  | processing (id : Int)
  | prNotFound (id : Int)
  | apiError (id : Int)
  | noCommits (id : Int)
  | taggingIntent (commit : String) (tag : String)
  | tagExists (tag : String)
  | tagApiError (tag : String)
  | doneTagging
  | fetchTags
  | pushIntent (tag : String)
  | pushError (tag : String)
deriving DecidableEq

/-- `tag_name = f"dig-pr_{id}"`, computed from the identifier alone. -/
def transferTagName (id : Int) : String := "dig-pr_" ++ toString id

/-- Outcome of one phase-1 loop body: either control reaches the next
iteration, or the body raises an uncaught `TypeError` (subscripting the
integer loop variable after a swallowed non-404 `HTTPError`) and the whole
run aborts. -/
inductive StepOut where
  | next (calls : List SetTagCall) (events : List TransferEvent)
  | fatal (calls : List SetTagCall) (events : List TransferEvent)
deriving DecidableEq

/-- The body of the phase-1 loop (lines 114-143 of `transfer_pr_bb2gh.py`)
for one input id: fetch metadata; on `HTTPError` the handler continues
only for status 404 — any other status falls out of the handler and the
subsequent `pr['fromRef']` subscripts the integer id, an uncaught
`TypeError`; on any other exception log and continue; skip when
`latestCommit` is `null`; otherwise log the tagging intent and, unless in
dry-run mode, call `set_tag`, treating a 409 conflict as an existing tag
and logging (then continuing) on any other exception. -/
def phase1Step (o : BBOracle) (proj slug : String) (dry : Bool) (id : Int) :
    StepOut :=
  match o.getPullRequest proj slug id with
  | BBResult.httpError status =>
      if status = 404 then
        StepOut.next [] [TransferEvent.processing id, TransferEvent.prNotFound id]
      else
        StepOut.fatal [] [TransferEvent.processing id]
  | BBResult.raises =>
      StepOut.next [] [TransferEvent.processing id, TransferEvent.apiError id]
  | BBResult.ok meta =>
      match meta.latestCommit with
      | none =>
          StepOut.next [] [TransferEvent.processing id, TransferEvent.noCommits id]
      | some commit =>
          let tag := transferTagName meta.id
          let base := [TransferEvent.processing id, TransferEvent.taggingIntent commit tag]
          if dry then StepOut.next [] base
          else
            match o.setTag proj slug tag commit with
            | TagResult.ok => StepOut.next [⟨proj, slug, tag, commit⟩] base
            | TagResult.httpError s =>
                if s = 409 then
                  StepOut.next [⟨proj, slug, tag, commit⟩]
                    (base ++ [TransferEvent.tagExists tag])
                else
                  StepOut.next [⟨proj, slug, tag, commit⟩] base
            | TagResult.raises =>
                StepOut.next [⟨proj, slug, tag, commit⟩]
                  (base ++ [TransferEvent.tagApiError tag])

/-- The `set_tag` calls a loop-body outcome carries. -/
def StepOut.calls : StepOut → List SetTagCall
  | StepOut.next c _ => c
  | StepOut.fatal c _ => c

/-- The log lines a loop-body outcome carries. -/
def StepOut.events : StepOut → List TransferEvent
  | StepOut.next _ e => e
  | StepOut.fatal _ e => e

/-- Whether the loop-body outcome is the uncaught `TypeError`. -/
def StepOut.isFatal : StepOut → Bool
  | StepOut.next _ _ => false
  | StepOut.fatal _ _ => true

/-- Log lines emitted only while reacting to a remote response after a
mutation attempt (tag conflict, tag-create failure, push failure); the
complement is the intent/decision log a dry run must reproduce. -/
def isErrorPathEvent : TransferEvent → Bool
  | TransferEvent.tagExists _ => true
  | TransferEvent.tagApiError _ => true
  | TransferEvent.pushError _ => true
  | _ => false

/-- The decision/intent log lines: everything except the reaction lines of
`isErrorPathEvent`. -/
def intentEvents (es : List TransferEvent) : List TransferEvent :=
  es.filter (fun e => !isErrorPathEvent e)

/-- Accumulated output of phase 1: issued `set_tag` calls, log lines, and
whether the run died on the uncaught `TypeError`. -/
structure Phase1Out where
  calls : List SetTagCall
  events : List TransferEvent
  aborted : Bool
deriving DecidableEq

/-- Phase 1 over the input ids, stopping at the first fatal iteration. -/
def runPhase1 (o : BBOracle) (proj slug : String) (dry : Bool) :
    List Int → Phase1Out
  | [] => ⟨[], [], false⟩
  | id :: rest =>
      match phase1Step o proj slug dry id with
      | StepOut.next c e =>
          let r := runPhase1 o proj slug dry rest
          ⟨c ++ r.calls, e ++ r.events, r.aborted⟩
      | StepOut.fatal c e => ⟨c, e, true⟩

/-- The body of the phase-2 loop (lines 155-163): log the push intent and,
unless in dry-run mode, push `refs/tags/dig-pr_<id>` to the `github`
remote, logging (and continuing) on a raised exception.  Returns the
refspecs pushed and the log lines. -/
def phase2Step (o : BBOracle) (dry : Bool) (id : Int) :
    List String × List TransferEvent :=
  let tag := transferTagName id
  if dry then ([], [TransferEvent.pushIntent tag])
  else
    let refspec := "refs/tags/" ++ tag ++ ":refs/tags/" ++ tag
    match o.push refspec with
    | PushResult.ok => ([refspec], [TransferEvent.pushIntent tag])
    | PushResult.raises =>
        ([refspec], [TransferEvent.pushIntent tag, TransferEvent.pushError tag])

/-- Phase 2 over the same input ids. -/
def runPhase2 (o : BBOracle) (dry : Bool) : List Int → List String × List TransferEvent
  | [] => ([], [])
  | id :: rest =>
      let s := phase2Step o dry id
      let r := runPhase2 o dry rest
      (s.1 ++ r.1, s.2 ++ r.2)

/-- Overall run output after setup: `set_tag` calls, pushed refspecs, log
lines, and whether the run aborted inside phase 1. -/
structure TransferRun where
  setTagCalls : List SetTagCall
  pushCalls : List String
  events : List TransferEvent
  aborted : Bool
deriving DecidableEq

/-- Both loops of `main` (lines 113-163): phase 1 over the ids; if it did
not abort, the `Done tagging PRs` line, the unconditional tag fetch from
origin, then phase 2 over the same ids. -/
def transferLoop (o : BBOracle) (proj slug : String) (dry : Bool)
    (ids : List Int) : TransferRun :=
  let p1 := runPhase1 o proj slug dry ids
  if p1.aborted then ⟨p1.calls, [], p1.events, true⟩
  else
    let p2 := runPhase2 o dry ids
    ⟨p1.calls, p2.1,
      p1.events ++ [TransferEvent.doneTagging, TransferEvent.fetchTags] ++ p2.2, false⟩

/-- How a transfer run can terminate before its loops: the explicit
`exit(1)` when `--pr-ids` is absent and stdin is a tty, or the uncaught
`TypeError` from `len(args.pr_ids)` at line 113 when `args.pr_ids` is
`None`. -/
inductive TransferAbort where
  | configExit
  | lenNoneTypeError
deriving DecidableEq

/-- `main` from the id-source checks onward (lines 53-64 and 113-163):
stdin ids are parsed into a local variable that no later code reads; both
loops consume `args.pr_ids` only. -/
def transferMain (o : BBOracle) (proj slug : String) (dry : Bool)
    (argsPrIds : Option (List Int)) (stdinIsTty : Bool) (stdinIds : List Int) :
    Except TransferAbort TransferRun :=
  if argsPrIds.isNone && stdinIsTty then Except.error TransferAbort.configExit
  else
    match argsPrIds with
    | none => Except.error TransferAbort.lenNoneTypeError
    | some ids => Except.ok (transferLoop o proj slug dry ids)

/-- Bitbucket project used in the concrete runs (default `RTB`). -/
def projRTB : String := "RTB"

/-- Repository slug used in the concrete runs (default `server`). -/
def slugServer : String := "server"

/-- A commit hash for the mocked metadata of found PRs. -/
def commitC8 : String := "c0ffee"

/-- Mocked Bitbucket responses where the metadata fetch for id 7 fails
with HTTP 500 and every other id is found with a latest commit. -/
def http500Oracle : BBOracle where
  getPullRequest := fun _ _ id =>
    if id = 7 then BBResult.httpError 500 else BBResult.ok ⟨id, some commitC8⟩
  setTag := fun _ _ _ _ => TagResult.ok
  push := fun _ => PushResult.ok

/-- The latest commit of mocked PR 42. -/
def commit42 : String := "abc123"

/-- Mocked Bitbucket responses where every PR is found with latest commit
`abc123` and every tag-create call answers 409 (tag already exists). -/
def tagExistsOracle : BBOracle where
  getPullRequest := fun _ _ id => BBResult.ok ⟨id, some commit42⟩
  setTag := fun _ _ _ _ => TagResult.httpError 409
  push := fun _ => PushResult.ok

end TransferPR

namespace BrokenPRs

theorem append_data (s t : String) : (s ++ t).data = s.data ++ t.data := rfl

theorem joinPath_inj {d a b : String} (h : joinPath d a = joinPath d b) : a = b := by
  unfold joinPath at h
  have h2 : (d ++ "/").data ++ a.data = (d ++ "/").data ++ b.data := by
    have h3 := congrArg String.data h
    simpa [append_data] using h3
  have h4 := List.append_cancel_left h2
  cases a
  cases b
  exact congrArg String.mk h4

theorem joinPath_ne {a b : String} (d : String) (hab : a ≠ b) :
    joinPath d a ≠ joinPath d b :=
  fun h => hab (joinPath_inj h)

/-- The file-system effects of one non-dry iteration, characterized by
the per-item predicates: a broken-log append when broken, a bare open of
the resume-marker file when the body reaches the marker write (which then
raises), a not-found append when not found, and an exceptions-log append
for every item whose body raised. -/
theorem processIssue_effects_eq (o : GithubOracle) (sd : String) (n : Int) :
    (processIssue o sd false n).effects =
      (if isBrokenItem o n then
        [FileOp.write (joinPath sd BROKEN_PRS_FILE) (toString n) true Mode.append] else []) ++
      (if markerAttemptItem o n then
        [FileOp.touch (joinPath sd LAST_ISSUE_FILE) Mode.append] else []) ++
      (if isNotFoundItem o n then
        [FileOp.write (joinPath sd PR_NOT_FOUND_FILE) (toString n) true Mode.append] else []) ++
      (if isExnItem o n then
        [FileOp.write (joinPath sd PR_EXCEPTIONS_FILE) (toString n) true Mode.append] else []) := by
  unfold processIssue isBrokenItem markerAttemptItem isNotFoundItem isExnItem
  cases h : o.getPull n with
  | notFound => simp [write_to_file, PyVal.format, h]
  | raises => simp [write_to_file, PyVal.format, h]
  | found commits diffUrl =>
      cases commits with
      | zero =>
          cases hg : o.httpGet diffUrl with
          | raises => simp [write_to_file, PyVal.format, h, hg]
          | status code =>
              by_cases h4 : code = 404 ∨ code = 422 <;>
                simp [write_to_file, PyVal.format, h, hg, h4]
      | succ m => simp [write_to_file, PyVal.format, h]

theorem idsWrittenTo_append (file : String) (xs ys : List FileOp) :
    idsWrittenTo file (xs ++ ys) = idsWrittenTo file xs ++ idsWrittenTo file ys := by
  induction xs with
  | nil => rfl
  | cons op rest ih =>
      cases op with
      | write f d nl m => by_cases h : f = file <;> simp [idsWrittenTo, h, ih]
      | touch f m => simp [idsWrittenTo, ih]

/-- Helper: the identifiers one non-dry iteration records in the broken
log. -/
theorem processIssue_ids_broken (o : GithubOracle) (sd : String) (n : Int) :
    idsWrittenTo (joinPath sd BROKEN_PRS_FILE) (processIssue o sd false n).effects
      = if isBrokenItem o n then [toString n] else [] := by
  rw [processIssue_effects_eq]
  have e2 := joinPath_ne (a := PR_NOT_FOUND_FILE) (b := BROKEN_PRS_FILE) sd (by decide)
  have e3 := joinPath_ne (a := PR_EXCEPTIONS_FILE) (b := BROKEN_PRS_FILE) sd (by decide)
  cases hb : isBrokenItem o n <;>
  cases hm : markerAttemptItem o n <;>
  cases hn : isNotFoundItem o n <;>
  cases hx : isExnItem o n <;>
    simp [idsWrittenTo, e2, e3]

/-- Helper: the identifiers one non-dry iteration records in the
not-found log. -/
theorem processIssue_ids_notfound (o : GithubOracle) (sd : String) (n : Int) :
    idsWrittenTo (joinPath sd PR_NOT_FOUND_FILE) (processIssue o sd false n).effects
      = if isNotFoundItem o n then [toString n] else [] := by
  rw [processIssue_effects_eq]
  have e1 := joinPath_ne (a := BROKEN_PRS_FILE) (b := PR_NOT_FOUND_FILE) sd (by decide)
  have e3 := joinPath_ne (a := PR_EXCEPTIONS_FILE) (b := PR_NOT_FOUND_FILE) sd (by decide)
  cases hb : isBrokenItem o n <;>
  cases hm : markerAttemptItem o n <;>
  cases hn : isNotFoundItem o n <;>
  cases hx : isExnItem o n <;>
    simp [idsWrittenTo, e1, e3]

/-- Helper: the identifiers one non-dry iteration records in the
exceptions log. -/
theorem processIssue_ids_exn (o : GithubOracle) (sd : String) (n : Int) :
    idsWrittenTo (joinPath sd PR_EXCEPTIONS_FILE) (processIssue o sd false n).effects
      = if isExnItem o n then [toString n] else [] := by
  rw [processIssue_effects_eq]
  have e1 := joinPath_ne (a := BROKEN_PRS_FILE) (b := PR_EXCEPTIONS_FILE) sd (by decide)
  have e2 := joinPath_ne (a := PR_NOT_FOUND_FILE) (b := PR_EXCEPTIONS_FILE) sd (by decide)
  cases hb : isBrokenItem o n <;>
  cases hm : markerAttemptItem o n <;>
  cases hn : isNotFoundItem o n <;>
  cases hx : isExnItem o n <;>
    simp [idsWrittenTo, e1, e2]

/-- Helper: no iteration ever records an identifier in the resume-marker
file — its only effect there is the bare open of the raising write. -/
theorem processIssue_ids_marker (o : GithubOracle) (sd : String) (n : Int) :
    idsWrittenTo (joinPath sd LAST_ISSUE_FILE) (processIssue o sd false n).effects = [] := by
  rw [processIssue_effects_eq]
  have e1 := joinPath_ne (a := BROKEN_PRS_FILE) (b := LAST_ISSUE_FILE) sd (by decide)
  have e2 := joinPath_ne (a := PR_NOT_FOUND_FILE) (b := LAST_ISSUE_FILE) sd (by decide)
  have e3 := joinPath_ne (a := PR_EXCEPTIONS_FILE) (b := LAST_ISSUE_FILE) sd (by decide)
  cases hb : isBrokenItem o n <;>
  cases hm : markerAttemptItem o n <;>
  cases hn : isNotFoundItem o n <;>
  cases hx : isExnItem o n <;>
    simp [idsWrittenTo, e1, e2, e3]

/-- The run's effects are the concatenation of the per-item effects. -/
theorem runScan_effects_append (o : GithubOracle) (sd : String) (dry : Bool)
    (L1 L2 : List Int) :
    (runScan o sd dry (L1 ++ L2)).effects
      = (runScan o sd dry L1).effects ++ (runScan o sd dry L2).effects := by
  induction L1 with
  | nil => simp [runScan]
  | cons n rest ih => simp [runScan, ih]

/-- Generic lifting of a per-item log characterization to a whole run. -/
theorem runScan_ids_of (o : GithubOracle) (sd file : String) (p : Int → Bool)
    (h : ∀ n, idsWrittenTo file (processIssue o sd false n).effects
          = if p n then [toString n] else []) :
    ∀ L : List Int, idsWrittenTo file (runScan o sd false L).effects
          = (L.filter p).map (fun n => toString n) := by
  intro L
  induction L with
  | nil => rfl
  | cons n rest ih =>
      show idsWrittenTo file ((processIssue o sd false n).effects
            ++ (runScan o sd false rest).effects) = _
      rw [idsWrittenTo_append, h n, ih]
      cases hp : p n <;> simp [List.filter_cons, hp]

/-- The broken log of a whole run is the input list filtered by the
per-item broken predicate, in order. -/
theorem runScan_ids_broken (o : GithubOracle) (sd : String) (L : List Int) :
    idsWrittenTo (joinPath sd BROKEN_PRS_FILE) (runScan o sd false L).effects
      = (L.filter (fun n => isBrokenItem o n)).map (fun n => toString n) :=
  runScan_ids_of o sd (joinPath sd BROKEN_PRS_FILE) (fun n => isBrokenItem o n)
    (fun n => processIssue_ids_broken o sd n) L

/-- The not-found log of a whole run, as a filter of the input list. -/
theorem runScan_ids_notfound (o : GithubOracle) (sd : String) (L : List Int) :
    idsWrittenTo (joinPath sd PR_NOT_FOUND_FILE) (runScan o sd false L).effects
      = (L.filter (fun n => isNotFoundItem o n)).map (fun n => toString n) :=
  runScan_ids_of o sd (joinPath sd PR_NOT_FOUND_FILE) (fun n => isNotFoundItem o n)
    (fun n => processIssue_ids_notfound o sd n) L

/-- The exceptions log of a whole run, as a filter of the input list. -/
theorem runScan_ids_exn (o : GithubOracle) (sd : String) (L : List Int) :
    idsWrittenTo (joinPath sd PR_EXCEPTIONS_FILE) (runScan o sd false L).effects
      = (L.filter (fun n => isExnItem o n)).map (fun n => toString n) :=
  runScan_ids_of o sd (joinPath sd PR_EXCEPTIONS_FILE) (fun n => isExnItem o n)
    (fun n => processIssue_ids_exn o sd n) L

/-- The resume-marker file receives no identifier in any run. -/
theorem runScan_ids_marker (o : GithubOracle) (sd : String) (L : List Int) :
    idsWrittenTo (joinPath sd LAST_ISSUE_FILE) (runScan o sd false L).effects = [] := by
  have h := runScan_ids_of o sd (joinPath sd LAST_ISSUE_FILE) (fun _ => false)
    (fun n => by simp [processIssue_ids_marker o sd n]) L
  simpa using h

theorem rangeNat_add (a b : Nat) :
    List.range (a + b) = List.range a ++ (List.range b).map (fun k => a + k) := by
  induction b with
  | zero => simp
  | succ b ih =>
      rw [Nat.add_succ, List.range_succ, List.range_succ, ih]
      simp [List.map_append, List.append_assoc]

/-- `range(s, e)` splits at any interior point `m`. -/
theorem rangeList_append (s m e : Int) (h1 : s ≤ m) (h2 : m ≤ e) :
    rangeList s m ++ rangeList m e = rangeList s e := by
  unfold rangeList
  have hab : (e - s).toNat = (m - s).toNat + (e - m).toNat := by omega
  rw [hab, rangeNat_add, List.map_append, List.map_map]
  congr 1
  apply List.map_congr_left
  intro k _
  simp only [Function.comp_apply]
  omega

/-- `writesToFile` holds exactly when the per-file id list is nonempty. -/
theorem writesToFile_eq_ids (f : String) (ops : List FileOp) :
    writesToFile f ops = !(idsWrittenTo f ops).isEmpty := by
  induction ops with
  | nil => rfl
  | cons op rest ih =>
      cases op with
      | write g d nl m => by_cases h : g = f <;> simp [writesToFile, idsWrittenTo, h, ih]
      | touch g m => simp [writesToFile, idsWrittenTo, ih]

/-- One non-dry iteration writes the broken log exactly when the item is
broken. -/
theorem processIssue_wr_broken (o : GithubOracle) (sd : String) (n : Int) :
    writesToFile (joinPath sd BROKEN_PRS_FILE) (processIssue o sd false n).effects
      = isBrokenItem o n := by
  rw [writesToFile_eq_ids, processIssue_ids_broken]
  cases h : isBrokenItem o n <;> simp

/-- One non-dry iteration writes the not-found log exactly when the
lookup reported not found. -/
theorem processIssue_wr_notfound (o : GithubOracle) (sd : String) (n : Int) :
    writesToFile (joinPath sd PR_NOT_FOUND_FILE) (processIssue o sd false n).effects
      = isNotFoundItem o n := by
  rw [writesToFile_eq_ids, processIssue_ids_notfound]
  cases h : isNotFoundItem o n <;> simp

/-- One non-dry iteration writes the exceptions log exactly when the body
raised. -/
theorem processIssue_wr_exn (o : GithubOracle) (sd : String) (n : Int) :
    writesToFile (joinPath sd PR_EXCEPTIONS_FILE) (processIssue o sd false n).effects
      = isExnItem o n := by
  rw [writesToFile_eq_ids, processIssue_ids_exn]
  cases h : isExnItem o n <;> simp

/-- No non-dry iteration ever writes the resume-marker file. -/
theorem processIssue_wr_marker (o : GithubOracle) (sd : String) (n : Int) :
    writesToFile (joinPath sd LAST_ISSUE_FILE) (processIssue o sd false n).effects
      = false := by
  rw [writesToFile_eq_ids, processIssue_ids_marker]
  rfl

/-- One non-dry iteration opens the resume-marker file (without writing
it) exactly when the body reaches line 131. -/
theorem processIssue_touch_marker (o : GithubOracle) (sd : String) (n : Int) :
    touchesFile (joinPath sd LAST_ISSUE_FILE) (processIssue o sd false n).effects
      = markerAttemptItem o n := by
  rw [processIssue_effects_eq]
  cases hb : isBrokenItem o n <;>
  cases hm : markerAttemptItem o n <;>
  cases hn : isNotFoundItem o n <;>
  cases hx : isExnItem o n <;>
    simp [touchesFile]

theorem notFound_exn_mutex (o : GithubOracle) (n : Int) :
    ¬(isNotFoundItem o n = true ∧ isExnItem o n = true) := by
  unfold isNotFoundItem isExnItem
  cases h : o.getPull n <;> simp

theorem notFound_broken_mutex (o : GithubOracle) (n : Int) :
    ¬(isNotFoundItem o n = true ∧ isBrokenItem o n = true) := by
  unfold isNotFoundItem isBrokenItem
  cases h : o.getPull n <;> simp

theorem broken_imp_exn (o : GithubOracle) (n : Int) :
    isBrokenItem o n = true → isExnItem o n = true := by
  unfold isBrokenItem isExnItem
  cases h : o.getPull n with
  | notFound => simp
  | raises => simp
  | found commits diffUrl => simp

/-- Being broken, unpacked into the responses the code inspects. -/
theorem isBrokenItem_iff (o : GithubOracle) (n : Int) :
    isBrokenItem o n = true
      ↔ ∃ diffUrl, o.getPull n = LookupResult.found 0 diffUrl
          ∧ ∃ code, o.httpGet diffUrl = FetchResult.status code
              ∧ (code = 404 ∨ code = 422) := by
  unfold isBrokenItem
  cases h : o.getPull n with
  | notFound => simp
  | raises => simp
  | found commits diffUrl =>
      cases commits with
      | zero =>
          cases hg : o.httpGet diffUrl with
          | raises => simp [hg]
          | status code => by_cases h4 : code = 404 ∨ code = 422 <;> simp [hg, h4]
      | succ m => simp

/-- The diff URLs one iteration fetches, as a function of the lookup
response: exactly one fetch for a found zero-commit PR, none otherwise. -/
theorem processIssue_fetches (o : GithubOracle) (sd : String) (dry : Bool) (n : Int) :
    (processIssue o sd dry n).fetches =
      (match o.getPull n with
        | LookupResult.found 0 diffUrl => [diffUrl]
        | _ => []) := by
  unfold processIssue
  cases dry with
  | false =>
      cases h : o.getPull n with
      | notFound => simp [write_to_file]
      | raises => simp [write_to_file]
      | found commits diffUrl =>
          cases commits with
          | zero =>
              cases hg : o.httpGet diffUrl with
              | raises => simp [write_to_file, hg]
              | status code =>
                  by_cases h4 : code = 404 ∨ code = 422 <;> simp [write_to_file, hg, h4]
          | succ m => simp [write_to_file]
  | true =>
      cases h : o.getPull n with
      | notFound => simp [write_to_file]
      | raises => simp [write_to_file]
      | found commits diffUrl =>
          cases commits with
          | zero =>
              cases hg : o.httpGet diffUrl with
              | raises => simp [write_to_file, hg]
              | status code =>
                  by_cases h4 : code = 404 ∨ code = 422 <;> simp [write_to_file, hg, h4]
          | succ m => simp [write_to_file]

/-- A dry-run iteration performs no file-system effect at all — not even
the bare open of the resume-marker file. -/
theorem processIssue_dry_effects (o : GithubOracle) (sd : String) (n : Int) :
    (processIssue o sd true n).effects = [] := by
  unfold processIssue
  cases h : o.getPull n with
  | notFound => simp [write_to_file]
  | raises => simp [write_to_file]
  | found commits diffUrl =>
      cases commits with
      | zero =>
          cases hg : o.httpGet diffUrl with
          | raises => simp [write_to_file, hg]
          | status code =>
              by_cases h4 : code = 404 ∨ code = 422 <;> simp [write_to_file, hg, h4]
      | succ m => simp [write_to_file]

/-- A dry run performs no file-system effect at all. -/
theorem runScan_dry_effects (o : GithubOracle) (sd : String) (L : List Int) :
    (runScan o sd true L).effects = [] := by
  induction L with
  | nil => rfl
  | cons n rest ih =>
      show (processIssue o sd true n).effects ++ (runScan o sd true rest).effects = []
      rw [processIssue_dry_effects, ih]
      rfl

/-- The complete log of one dry-run iteration: every classification
decision line and, for each branch, the announcement of the write the
code intends (the dry marker announcement is emitted even though the
non-dry write would raise before writing). -/
theorem processIssue_dry_events_eq (o : GithubOracle) (sd : String) (n : Int) :
    (processIssue o sd true n).events =
      (match o.getPull n with
        | LookupResult.notFound =>
            [ScanEvent.checking n, ScanEvent.notFoundLog n,
              ScanEvent.dryWrite (joinPath sd PR_NOT_FOUND_FILE) (PyVal.int n)]
        | LookupResult.raises =>
            [ScanEvent.checking n, ScanEvent.exnLog n,
              ScanEvent.dryWrite (joinPath sd PR_EXCEPTIONS_FILE) (PyVal.int n)]
        | LookupResult.found 0 diffUrl =>
            (match o.httpGet diffUrl with
              | FetchResult.raises =>
                  [ScanEvent.checking n, ScanEvent.suspicious n, ScanEvent.exnLog n,
                    ScanEvent.dryWrite (joinPath sd PR_EXCEPTIONS_FILE) (PyVal.int n)]
              | FetchResult.status code =>
                  if code = 404 ∨ code = 422 then
                    [ScanEvent.checking n, ScanEvent.suspicious n, ScanEvent.noDiff n,
                      ScanEvent.dryWrite (joinPath sd BROKEN_PRS_FILE) (PyVal.int n),
                      ScanEvent.dryWrite (joinPath sd LAST_ISSUE_FILE) (PyVal.int n)]
                  else
                    [ScanEvent.checking n, ScanEvent.suspicious n,
                      ScanEvent.dryWrite (joinPath sd LAST_ISSUE_FILE) (PyVal.int n)])
        | LookupResult.found _ _ =>
            [ScanEvent.checking n,
              ScanEvent.dryWrite (joinPath sd LAST_ISSUE_FILE) (PyVal.int n)]) := by
  unfold processIssue
  cases h : o.getPull n with
  | notFound => simp [write_to_file]
  | raises => simp [write_to_file]
  | found commits diffUrl =>
      cases commits with
      | zero =>
          cases hg : o.httpGet diffUrl with
          | raises => simp [write_to_file, hg]
          | status code =>
              by_cases h4 : code = 404 ∨ code = 422 <;> simp [write_to_file, hg, h4]
      | succ m => simp [write_to_file]

end BrokenPRs

namespace TransferPR

theorem intentEvents_append (xs ys : List TransferEvent) :
    intentEvents (xs ++ ys) = intentEvents xs ++ intentEvents ys := by
  simp [intentEvents, List.filter_append]

/-- A dry phase-1 iteration issues no `set_tag` call. -/
theorem phase1Step_dry_calls (o : BBOracle) (proj slug : String) (id : Int) :
    (phase1Step o proj slug true id).calls = [] := by
  cases h : o.getPullRequest proj slug id with
  | httpError status =>
      by_cases h4 : status = 404 <;> simp [phase1Step, h, h4, StepOut.calls]
  | raises => simp [phase1Step, h, StepOut.calls]
  | ok meta =>
      cases hm : meta.latestCommit with
      | none => simp [phase1Step, h, hm, StepOut.calls]
      | some commit => simp [phase1Step, h, hm, StepOut.calls]

/-- Whether a phase-1 iteration dies on the uncaught `TypeError` does not
depend on dry-run mode. -/
theorem phase1Step_dry_fatal (o : BBOracle) (proj slug : String) (id : Int) :
    (phase1Step o proj slug true id).isFatal
      = (phase1Step o proj slug false id).isFatal := by
  cases h : o.getPullRequest proj slug id with
  | httpError status =>
      by_cases h4 : status = 404 <;> simp [phase1Step, h, h4, StepOut.isFatal]
  | raises => simp [phase1Step, h, StepOut.isFatal]
  | ok meta =>
      cases hm : meta.latestCommit with
      | none => simp [phase1Step, h, hm, StepOut.isFatal]
      | some commit =>
          cases ht : o.setTag proj slug (transferTagName meta.id) commit with
          | ok => simp [phase1Step, h, hm, ht, StepOut.isFatal]
          | httpError s =>
              by_cases h9 : s = 409 <;> simp [phase1Step, h, hm, ht, h9, StepOut.isFatal]
          | raises => simp [phase1Step, h, hm, ht, StepOut.isFatal]

/-- The decision/intent log of a phase-1 iteration does not depend on
dry-run mode. -/
theorem phase1Step_dry_intent (o : BBOracle) (proj slug : String) (id : Int) :
    intentEvents (phase1Step o proj slug true id).events
      = intentEvents (phase1Step o proj slug false id).events := by
  cases h : o.getPullRequest proj slug id with
  | httpError status =>
      by_cases h4 : status = 404 <;>
        simp [phase1Step, h, h4, StepOut.events, intentEvents, isErrorPathEvent]
  | raises => simp [phase1Step, h, StepOut.events, intentEvents, isErrorPathEvent]
  | ok meta =>
      cases hm : meta.latestCommit with
      | none => simp [phase1Step, h, hm, StepOut.events, intentEvents, isErrorPathEvent]
      | some commit =>
          cases ht : o.setTag proj slug (transferTagName meta.id) commit with
          | ok => simp [phase1Step, h, hm, ht, StepOut.events, intentEvents, isErrorPathEvent]
          | httpError s =>
              by_cases h9 : s = 409 <;>
                simp [phase1Step, h, hm, ht, h9, StepOut.events, intentEvents, isErrorPathEvent]
          | raises =>
              simp [phase1Step, h, hm, ht, StepOut.events, intentEvents, isErrorPathEvent]

/-- Phase 1 in dry-run mode: no `set_tag` calls, the same decision log,
and the same abort behavior as the non-dry run. -/
theorem runPhase1_dry (o : BBOracle) (proj slug : String) (ids : List Int) :
    (runPhase1 o proj slug true ids).calls = []
    ∧ intentEvents (runPhase1 o proj slug true ids).events
        = intentEvents (runPhase1 o proj slug false ids).events
    ∧ (runPhase1 o proj slug true ids).aborted
        = (runPhase1 o proj slug false ids).aborted := by
  induction ids with
  | nil => exact ⟨rfl, rfl, rfl⟩
  | cons id rest ih =>
      obtain ⟨ih1, ih2, ih3⟩ := ih
      have hc := phase1Step_dry_calls o proj slug id
      have hf := phase1Step_dry_fatal o proj slug id
      have hi := phase1Step_dry_intent o proj slug id
      cases hst : phase1Step o proj slug true id with
      | next c e =>
          cases hsf : phase1Step o proj slug false id with
          | next c2 e2 =>
              rw [hst] at hc hi
              rw [hsf] at hi
              simp only [StepOut.calls] at hc
              simp only [StepOut.events] at hi
              refine ⟨?_, ?_, ?_⟩ <;>
                simp [runPhase1, hst, hsf, hc, hi, ih1, ih2, ih3, intentEvents_append]
          | fatal c2 e2 =>
              rw [hst, hsf] at hf
              simp [StepOut.isFatal] at hf
      | fatal c e =>
          cases hsf : phase1Step o proj slug false id with
          | next c2 e2 =>
              rw [hst, hsf] at hf
              simp [StepOut.isFatal] at hf
          | fatal c2 e2 =>
              rw [hst] at hc hi
              rw [hsf] at hi
              simp only [StepOut.calls] at hc
              simp only [StepOut.events] at hi
              refine ⟨?_, ?_, ?_⟩ <;> simp [runPhase1, hst, hsf, hc, hi]

/-- A dry phase-2 iteration pushes nothing. -/
theorem phase2Step_dry_pushes (o : BBOracle) (id : Int) :
    (phase2Step o true id).1 = [] := by
  simp [phase2Step]

/-- The push-intent log of a phase-2 iteration does not depend on dry-run
mode. -/
theorem phase2Step_dry_intent (o : BBOracle) (id : Int) :
    intentEvents (phase2Step o true id).2 = intentEvents (phase2Step o false id).2 := by
  cases hp : o.push ("refs/tags/" ++ transferTagName id ++ ":refs/tags/" ++ transferTagName id) <;>
    simp [phase2Step, hp, intentEvents, isErrorPathEvent]

/-- Phase 2 in dry-run mode: no pushes and the same push-intent log. -/
theorem runPhase2_dry (o : BBOracle) (ids : List Int) :
    (runPhase2 o true ids).1 = []
    ∧ intentEvents (runPhase2 o true ids).2 = intentEvents (runPhase2 o false ids).2 := by
  induction ids with
  | nil => exact ⟨rfl, rfl⟩
  | cons id rest ih =>
      obtain ⟨ih1, ih2⟩ := ih
      refine ⟨?_, ?_⟩ <;>
        simp [runPhase2, phase2Step_dry_pushes, intentEvents_append,
          phase2Step_dry_intent, ih1, ih2]

/-- The non-dry refspec a phase-2 iteration pushes. -/
theorem phase2Step_calls_wet (o : BBOracle) (id : Int) :
    (phase2Step o false id).1
      = ["refs/tags/" ++ transferTagName id ++ ":refs/tags/" ++ transferTagName id] := by
  cases hp : o.push ("refs/tags/" ++ transferTagName id ++ ":refs/tags/" ++ transferTagName id) <;>
    simp [phase2Step, hp]

/-- Non-dry phase 2 pushes `refs/tags/dig-pr_<id>` once per input id, in
input order, regardless of push failures. -/
theorem runPhase2_calls_wet (o : BBOracle) (ids : List Int) :
    (runPhase2 o false ids).1
      = ids.map (fun i => "refs/tags/" ++ transferTagName i ++ ":refs/tags/" ++ transferTagName i) := by
  induction ids with
  | nil => rfl
  | cons id rest ih => simp [runPhase2, phase2Step_calls_wet, ih]

/-- A dry transfer run: no `set_tag` calls, no pushes, the same
decision/intent log as a non-dry run. -/
theorem transferLoop_dry (o : BBOracle) (proj slug : String) (ids : List Int) :
    (transferLoop o proj slug true ids).setTagCalls = []
    ∧ (transferLoop o proj slug true ids).pushCalls = []
    ∧ intentEvents (transferLoop o proj slug true ids).events
        = intentEvents (transferLoop o proj slug false ids).events := by
  obtain ⟨h1, h2, h3⟩ := runPhase1_dry o proj slug ids
  obtain ⟨h4, h5⟩ := runPhase2_dry o ids
  cases hab : (runPhase1 o proj slug true ids).aborted with
  | true =>
      have hab2 : (runPhase1 o proj slug false ids).aborted = true := h3.symm.trans hab
      refine ⟨?_, ?_, ?_⟩ <;> simp [transferLoop, hab, hab2, h1, h2]
  | false =>
      have hab2 : (runPhase1 o proj slug false ids).aborted = false := h3.symm.trans hab
      have e1 : (transferLoop o proj slug true ids).events
          = (runPhase1 o proj slug true ids).events
            ++ [TransferEvent.doneTagging, TransferEvent.fetchTags]
            ++ (runPhase2 o true ids).2 := by
        simp [transferLoop, hab]
      have e2 : (transferLoop o proj slug false ids).events
          = (runPhase1 o proj slug false ids).events
            ++ [TransferEvent.doneTagging, TransferEvent.fetchTags]
            ++ (runPhase2 o false ids).2 := by
        simp [transferLoop, hab2]
      refine ⟨?_, ?_, ?_⟩
      · simp [transferLoop, hab, h1]
      · simp [transferLoop, hab, h4]
      · rw [e1, e2, intentEvents_append, intentEvents_append, intentEvents_append,
          intentEvents_append, h2, h5]

end TransferPR

open BrokenPRs TransferPR

/-- C1: claimed that after every loop body completing without a fatal
abort — not-found, broken, or unclassified alike — the resume-marker file
is overwritten so that it holds exactly the last processed identifier.
In the code the marker write passes the int `pr_number` with
`newline=False`, so `f.write` raises `TypeError`: the marker file is only
ever opened (created empty), never written, and the item is routed to the
outer handler, which appends it to the exceptions log; on the not-found
branch the `continue` skips the marker write altogether.  Concretely,
after 18057 (broken) and 32559 (normal) the marker file exists but is
empty and both ids sit in the exceptions log. -/
theorem scanner_resume_marker_never_written_c1 :
    (processIssue scenarioOracle dataDir false 32559).effects
      = [FileOp.touch (joinPath dataDir LAST_ISSUE_FILE) Mode.append,
         FileOp.write (joinPath dataDir PR_EXCEPTIONS_FILE) ("32559") true Mode.append]
    ∧ idsWrittenTo (joinPath dataDir LAST_ISSUE_FILE)
        (runScan scenarioOracle dataDir false [18057, 32559]).effects = []
    ∧ (runWrites emptyFS (runScan scenarioOracle dataDir false [18057, 32559]).effects)
        (joinPath dataDir LAST_ISSUE_FILE) = some ("")
    ∧ idsWrittenTo (joinPath dataDir PR_EXCEPTIONS_FILE)
        (runScan scenarioOracle dataDir false [18057, 32559]).effects = [("18057"), ("32559")]
    ∧ touchesFile (joinPath dataDir LAST_ISSUE_FILE)
        (processIssue scenarioOracle dataDir false 99999999).effects = false := by
  decide

/-- C2 counterexample: the broken PR 18057 is appended both to the broken
log and — via the `TypeError` of the subsequent resume-marker write — to
the exceptions log, and its marker is not advanced: the item lands in two
output logs, refuting "never in more than one" and "the resume marker is
advanced". -/
theorem scanner_double_logged_c2_cex :
    writesToFile (joinPath dataDir BROKEN_PRS_FILE)
        (processIssue scenarioOracle dataDir false 18057).effects = true
    ∧ writesToFile (joinPath dataDir PR_EXCEPTIONS_FILE)
        (processIssue scenarioOracle dataDir false 18057).effects = true
    ∧ writesToFile (joinPath dataDir LAST_ISSUE_FILE)
        (processIssue scenarioOracle dataDir false 18057).effects = false := by
  decide

/-- C2 (amended): a visited item lands in the not-found log exactly when
its lookup reported not found, and in the exceptions log exactly when its
body raised — which, because the resume-marker write raises `TypeError`,
is the case for every found PR; broken items are additionally in the
broken log (two logs); the not-found log is exclusive of the exceptions
log; and the resume marker is advanced for no item. -/
theorem scanner_logs_and_marker_c2 (o : GithubOracle) (sd : String) (n : Int) :
    (writesToFile (joinPath sd PR_NOT_FOUND_FILE) (processIssue o sd false n).effects = true
      ↔ isNotFoundItem o n = true)
    ∧ (writesToFile (joinPath sd BROKEN_PRS_FILE) (processIssue o sd false n).effects = true
      ↔ isBrokenItem o n = true)
    ∧ (writesToFile (joinPath sd PR_EXCEPTIONS_FILE) (processIssue o sd false n).effects = true
      ↔ isExnItem o n = true)
    ∧ ¬(writesToFile (joinPath sd PR_NOT_FOUND_FILE) (processIssue o sd false n).effects = true
        ∧ writesToFile (joinPath sd PR_EXCEPTIONS_FILE) (processIssue o sd false n).effects = true)
    ∧ (writesToFile (joinPath sd BROKEN_PRS_FILE) (processIssue o sd false n).effects = true
        → writesToFile (joinPath sd PR_EXCEPTIONS_FILE) (processIssue o sd false n).effects = true)
    ∧ idsWrittenTo (joinPath sd LAST_ISSUE_FILE) (processIssue o sd false n).effects = [] := by
  rw [processIssue_wr_broken, processIssue_wr_notfound, processIssue_wr_exn]
  exact ⟨Iff.rfl, Iff.rfl, Iff.rfl, notFound_exn_mutex o n, broken_imp_exn o n,
    processIssue_ids_marker o sd n⟩

/-- C2 witness: the normal PR 32559 is appended to the exceptions log. -/
theorem scanner_logs_and_marker_c2_witness :
    writesToFile (joinPath dataDir PR_EXCEPTIONS_FILE)
        (processIssue scenarioOracle dataDir false 32559).effects = true :=
  (scanner_logs_and_marker_c2 scenarioOracle dataDir 32559).2.2.1.mpr (by decide)

/-- C3: claimed that any metadata-fetch failure (404 or any other
protocol error) is logged and skipped and the loop always runs to
exhaustion.  In the code a non-404 `HTTPError` is silently swallowed by
the `if status == 404` handler, after which the body subscripts the
integer loop variable and dies on an uncaught `TypeError`: with HTTP 500
on id 7, the run aborts, logs nothing about the failure, and never
processes id 8. -/
theorem transfer_http_error_aborts_batch_c3 :
    (transferLoop http500Oracle projRTB slugServer false [7, 8]).aborted = true
    ∧ (transferLoop http500Oracle projRTB slugServer false [7, 8]).events
        = [TransferEvent.processing 7]
    ∧ (transferLoop http500Oracle projRTB slugServer false [7, 8]).setTagCalls = []
    ∧ (transferLoop http500Oracle projRTB slugServer false [7, 8]).pushCalls = [] := by
  decide

/-- C4: the end-to-end scenario over [18057, 32559, 99999999] with the
mocked responses: the not-found log holds exactly 99999999 and the broken
log exactly 18057 as claimed — but 18057 and 32559 are both appended to
the exceptions log (their resume-marker writes raise `TypeError`), and
the marker file ends empty (created by the bare opens, never written),
not at 99999999, whose not-found branch skips the marker write. -/
theorem scanner_end_to_end_scenario_c4 :
    idsWrittenTo (joinPath dataDir PR_NOT_FOUND_FILE)
        (runScan scenarioOracle dataDir false [18057, 32559, 99999999]).effects = [("99999999")]
    ∧ idsWrittenTo (joinPath dataDir BROKEN_PRS_FILE)
        (runScan scenarioOracle dataDir false [18057, 32559, 99999999]).effects = [("18057")]
    ∧ idsWrittenTo (joinPath dataDir PR_EXCEPTIONS_FILE)
        (runScan scenarioOracle dataDir false [18057, 32559, 99999999]).effects
      = [("18057"), ("32559")]
    ∧ (runWrites emptyFS (runScan scenarioOracle dataDir false [18057, 32559, 99999999]).effects)
        (joinPath dataDir PR_NOT_FOUND_FILE) = some ("99999999\n")
    ∧ (runWrites emptyFS (runScan scenarioOracle dataDir false [18057, 32559, 99999999]).effects)
        (joinPath dataDir BROKEN_PRS_FILE) = some ("18057\n")
    ∧ (runWrites emptyFS (runScan scenarioOracle dataDir false [18057, 32559, 99999999]).effects)
        (joinPath dataDir PR_EXCEPTIONS_FILE) = some ("18057\n32559\n")
    ∧ idsWrittenTo (joinPath dataDir LAST_ISSUE_FILE)
        (runScan scenarioOracle dataDir false [18057, 32559, 99999999]).effects = []
    ∧ (runWrites emptyFS (runScan scenarioOracle dataDir false [18057, 32559, 99999999]).effects)
        (joinPath dataDir LAST_ISSUE_FILE) = some ("")
    ∧ ¬((runWrites emptyFS (runScan scenarioOracle dataDir false [18057, 32559, 99999999]).effects)
        (joinPath dataDir LAST_ISSUE_FILE) = some ("99999999")) := by
  decide

/-- C5 counterexample: a zero-commit PR whose diff fetch answers 500 is
not "left unclassified, advancing the resume marker" — it is appended to
the exceptions log (its resume-marker write raises `TypeError`) and the
marker is not written. -/
theorem scanner_zero_commit_other_status_c5_cex :
    writesToFile (joinPath dataDir BROKEN_PRS_FILE)
        (processIssue status500Oracle dataDir false 555).effects = false
    ∧ writesToFile (joinPath dataDir PR_EXCEPTIONS_FILE)
        (processIssue status500Oracle dataDir false 555).effects = true
    ∧ writesToFile (joinPath dataDir LAST_ISSUE_FILE)
        (processIssue status500Oracle dataDir false 555).effects = false := by
  decide

/-- C5 (amended): an item is appended to the broken log iff its PR is
found with zero commits and the authenticated diff fetch answers 404 or
422; a PR with a positive commit count triggers no diff fetch; and a
zero-commit PR whose diff fetch answers any other status is appended to
neither the broken nor the not-found log, but its subsequent resume-marker
write raises `TypeError`, so it is appended to the exceptions log and the
marker file is only opened, never written. -/
theorem scanner_broken_iff_c5 (o : GithubOracle) (sd : String) (n : Int) :
    (writesToFile (joinPath sd BROKEN_PRS_FILE) (processIssue o sd false n).effects = true
      ↔ ∃ diffUrl, o.getPull n = LookupResult.found 0 diffUrl
          ∧ ∃ code, o.httpGet diffUrl = FetchResult.status code
              ∧ (code = 404 ∨ code = 422))
    ∧ ((processIssue o sd false n).fetches =
        (match o.getPull n with
          | LookupResult.found 0 diffUrl => [diffUrl]
          | _ => []))
    ∧ (∀ diffUrl code, o.getPull n = LookupResult.found 0 diffUrl →
        o.httpGet diffUrl = FetchResult.status code → ¬(code = 404 ∨ code = 422) →
        writesToFile (joinPath sd BROKEN_PRS_FILE) (processIssue o sd false n).effects = false
        ∧ writesToFile (joinPath sd PR_NOT_FOUND_FILE) (processIssue o sd false n).effects = false
        ∧ writesToFile (joinPath sd PR_EXCEPTIONS_FILE) (processIssue o sd false n).effects = true
        ∧ idsWrittenTo (joinPath sd LAST_ISSUE_FILE) (processIssue o sd false n).effects = []
        ∧ touchesFile (joinPath sd LAST_ISSUE_FILE) (processIssue o sd false n).effects = true) := by
  refine ⟨?_, processIssue_fetches o sd false n, ?_⟩
  · rw [processIssue_wr_broken]
    exact isBrokenItem_iff o n
  · intro diffUrl code hl hs h4
    rw [processIssue_wr_broken, processIssue_wr_notfound, processIssue_wr_exn,
      processIssue_touch_marker]
    refine ⟨?_, ?_, ?_, processIssue_ids_marker o sd n, ?_⟩
    · simp [isBrokenItem, hl, hs, h4]
    · simp [isNotFoundItem, hl]
    · simp [isExnItem, hl]
    · simp [markerAttemptItem, hl, hs]

/-- C5 witness: the zero-commit PR 555 with diff status 500 lands in the
exceptions log. -/
theorem scanner_broken_iff_c5_witness :
    writesToFile (joinPath dataDir PR_EXCEPTIONS_FILE)
        (processIssue status500Oracle dataDir false 555).effects = true :=
  ((scanner_broken_iff_c5 status500Oracle dataDir 555).2.2 diffUrl500 500
      rfl rfl (by decide)).2.2.1

/-- C6: the tag name is `dig-pr_<id>`, computed from the PR identifier
alone; a 409 conflict on tag creation is treated as success — the
iteration ends on the normal path (tag-exists log line, no error-path
`continue`) after having issued the `set_tag` call; and phase 2 pushes
`refs/tags/dig-pr_<id>` to the destination remote for every input
identifier. -/
theorem transfer_tag_idempotent_c6 (o : BBOracle) (proj slug : String) (id : Int)
    (meta : PRMeta) (commit : String) (ids : List Int)
    (h1 : o.getPullRequest proj slug id = BBResult.ok meta)
    (h2 : meta.latestCommit = some commit)
    (h3 : o.setTag proj slug (transferTagName meta.id) commit = TagResult.httpError 409) :
    transferTagName meta.id = "dig-pr_" ++ toString meta.id
    ∧ phase1Step o proj slug false id
        = StepOut.next [⟨proj, slug, transferTagName meta.id, commit⟩]
            [TransferEvent.processing id,
              TransferEvent.taggingIntent commit (transferTagName meta.id),
              TransferEvent.tagExists (transferTagName meta.id)]
    ∧ (runPhase2 o false ids).1
        = ids.map (fun i => "refs/tags/" ++ transferTagName i ++ ":refs/tags/" ++ transferTagName i) := by
  refine ⟨rfl, ?_, runPhase2_calls_wet o ids⟩
  simp [phase1Step, h1, h2, h3]

/-- C6 witness: tagging PR 42 whose tag already exists (409) ends on the
normal path with the `set_tag` call issued. -/
theorem transfer_tag_idempotent_c6_witness :
    phase1Step tagExistsOracle projRTB slugServer false 42
      = StepOut.next [⟨projRTB, slugServer, transferTagName 42, commit42⟩]
          [TransferEvent.processing 42,
            TransferEvent.taggingIntent commit42 (transferTagName 42),
            TransferEvent.tagExists (transferTagName 42)] :=
  (transfer_tag_idempotent_c6 tagExistsOracle projRTB slugServer 42 ⟨42, some commit42⟩
      commit42 [42] rfl rfl rfl).2.1

/-- C7: with `--dry-run` the scanner creates no state directory and
performs no file-system effect at all (not even the bare open of the
resume-marker file), while its complete per-item log still reports every
classification decision and announces every write the code intends; the
transfer utility issues no tag-create and no tag-push call, and its
decision/intent log lines are the same as in a non-dry run. -/
theorem dry_run_no_mutation_c7 (o : GithubOracle) (sd : String) (issues : List Int)
    (o2 : BBOracle) (proj slug : String) (ids : List Int) :
    (scannerMain o sd true issues).mkdirCalled = false
    ∧ (runScan o sd true issues).effects = []
    ∧ (∀ n : Int, (processIssue o sd true n).events =
        (match o.getPull n with
          | LookupResult.notFound =>
              [ScanEvent.checking n, ScanEvent.notFoundLog n,
                ScanEvent.dryWrite (joinPath sd PR_NOT_FOUND_FILE) (PyVal.int n)]
          | LookupResult.raises =>
              [ScanEvent.checking n, ScanEvent.exnLog n,
                ScanEvent.dryWrite (joinPath sd PR_EXCEPTIONS_FILE) (PyVal.int n)]
          | LookupResult.found 0 diffUrl =>
              (match o.httpGet diffUrl with
                | FetchResult.raises =>
                    [ScanEvent.checking n, ScanEvent.suspicious n, ScanEvent.exnLog n,
                      ScanEvent.dryWrite (joinPath sd PR_EXCEPTIONS_FILE) (PyVal.int n)]
                | FetchResult.status code =>
                    if code = 404 ∨ code = 422 then
                      [ScanEvent.checking n, ScanEvent.suspicious n, ScanEvent.noDiff n,
                        ScanEvent.dryWrite (joinPath sd BROKEN_PRS_FILE) (PyVal.int n),
                        ScanEvent.dryWrite (joinPath sd LAST_ISSUE_FILE) (PyVal.int n)]
                    else
                      [ScanEvent.checking n, ScanEvent.suspicious n,
                        ScanEvent.dryWrite (joinPath sd LAST_ISSUE_FILE) (PyVal.int n)])
          | LookupResult.found _ _ =>
              [ScanEvent.checking n,
                ScanEvent.dryWrite (joinPath sd LAST_ISSUE_FILE) (PyVal.int n)]))
    ∧ (transferLoop o2 proj slug true ids).setTagCalls = []
    ∧ (transferLoop o2 proj slug true ids).pushCalls = []
    ∧ intentEvents (transferLoop o2 proj slug true ids).events
        = intentEvents (transferLoop o2 proj slug false ids).events := by
  obtain ⟨t1, t2, t3⟩ := transferLoop_dry o2 proj slug ids
  exact ⟨rfl, runScan_dry_effects o sd issues,
    fun n => processIssue_dry_events_eq o sd n, t1, t2, t3⟩

/-- C8: each output log of a run is the input list filtered by a
predicate of that item's own responses only (the marker file receiving
none), so running the loop over the sub-range [M+1, e) classifies every
identifier exactly as a fresh run over [s, e) does: the fresh full run's
effect sequence is literally the prefix run over [s, M+1) followed by the
resumed run over [M+1, e). -/
theorem scanner_resumable_c8 (o : GithubOracle) (sd : String) (s e M : Int)
    (h1 : s ≤ M + 1) (h2 : M + 1 ≤ e) :
    idsWrittenTo (joinPath sd BROKEN_PRS_FILE)
        (runScan o sd false (rangeList (M + 1) e)).effects
      = ((rangeList (M + 1) e).filter (fun n => isBrokenItem o n)).map (fun n => toString n)
    ∧ idsWrittenTo (joinPath sd PR_NOT_FOUND_FILE)
        (runScan o sd false (rangeList (M + 1) e)).effects
      = ((rangeList (M + 1) e).filter (fun n => isNotFoundItem o n)).map (fun n => toString n)
    ∧ idsWrittenTo (joinPath sd PR_EXCEPTIONS_FILE)
        (runScan o sd false (rangeList (M + 1) e)).effects
      = ((rangeList (M + 1) e).filter (fun n => isExnItem o n)).map (fun n => toString n)
    ∧ idsWrittenTo (joinPath sd LAST_ISSUE_FILE)
        (runScan o sd false (rangeList (M + 1) e)).effects = []
    ∧ (runScan o sd false (rangeList s e)).effects
        = (runScan o sd false (rangeList s (M + 1))).effects
          ++ (runScan o sd false (rangeList (M + 1) e)).effects := by
  refine ⟨runScan_ids_broken o sd _, runScan_ids_notfound o sd _, runScan_ids_exn o sd _,
    runScan_ids_marker o sd _, ?_⟩
  rw [← rangeList_append s (M + 1) e h1 h2, runScan_effects_append]

/-- C8 witness: with the mocked responses, a fresh run over [1, 4) is the
prefix run over [1, 2) followed by the resumed run over [2, 4). -/
theorem scanner_resumable_c8_witness :
    (runScan scenarioOracle dataDir false (rangeList 2 4)).effects
      = (runScan scenarioOracle dataDir false (rangeList 2 4)).effects
    ∧ (runScan scenarioOracle dataDir false (rangeList 1 4)).effects
        = (runScan scenarioOracle dataDir false (rangeList 1 2)).effects
          ++ (runScan scenarioOracle dataDir false (rangeList 2 4)).effects :=
  ⟨rfl, (scanner_resumable_c8 scenarioOracle dataDir 1 4 1 (by decide) (by decide)).2.2.2.2⟩

/-- C9: supplying only `--start` (or only `--end`) with no `--pr` passes
the argument validation, and the run then dies constructing
`range(start, end)` with a `None` endpoint — a `TypeError`, not a
reported configuration error. -/
theorem scanner_half_range_type_error_c9 (s : Int) :
    scannerArgsAccepted none (some s) none = true
    ∧ generateIssues none (some s) none = Except.error typeErrorMsg
    ∧ scannerArgsAccepted none none (some s) = true
    ∧ generateIssues none none (some s) = Except.error typeErrorMsg :=
  ⟨rfl, rfl, rfl, rfl⟩

/-- C10: the identifiers parsed from stdin are never consulted — the run
is a constant function of them — and with `--pr-ids` absent and stdin not
a tty the setup check passes and the run dies on `len(args.pr_ids)`
(`TypeError` on `None`) before the loop processes any work item. -/
theorem transfer_stdin_ids_unused_c10 (o : BBOracle) (proj slug : String) (dry : Bool)
    (stdinIds : List Int) :
    transferMain o proj slug dry none false stdinIds
        = Except.error TransferAbort.lenNoneTypeError
    ∧ ∀ (argsPrIds : Option (List Int)) (stdinIsTty : Bool) (l1 l2 : List Int),
        transferMain o proj slug dry argsPrIds stdinIsTty l1
          = transferMain o proj slug dry argsPrIds stdinIsTty l2 :=
  ⟨rfl, fun _ _ _ _ => rfl⟩

/-- C7 witness: a concrete dry scanner run creates no state directory. -/
theorem dry_run_no_mutation_c7_witness :
    (scannerMain scenarioOracle dataDir true [18057]).mkdirCalled = false :=
  (dry_run_no_mutation_c7 scenarioOracle dataDir [18057]
      tagExistsOracle projRTB slugServer [42]).1

/-- C9 witness: the validation accepts start-only arguments at start 5. -/
theorem scanner_half_range_type_error_c9_witness :
    scannerArgsAccepted none (some 5) none = true
    ∧ generateIssues none (some 5) none = Except.error typeErrorMsg :=
  ⟨(scanner_half_range_type_error_c9 5).1, (scanner_half_range_type_error_c9 5).2.1⟩

/-- C10 witness: with stdin ids [3, 4] and no `--pr-ids`, the run dies on
`len(None)` before the loop. -/
theorem transfer_stdin_ids_unused_c10_witness :
    transferMain tagExistsOracle projRTB slugServer false none false [3, 4]
      = Except.error TransferAbort.lenNoneTypeError :=
  (transfer_stdin_ids_unused_c10 tagExistsOracle projRTB slugServer false [3, 4]).1
